import Mathlib

/-!
Verification of the error module of the rs-tiled decoding core
(src/error.rs): the `Error` enum, its `Display` rendering, the
`std::error::Error::source` accessor, and the `Result` alias.

External dependency error types (std::io::Error, base64::DecodeError,
xml::reader::Error) are modelled as abstract values carrying the data the
real types expose; `Error` stores them as values, exactly as the source
does. `PathBuf` is modelled by its lossy textual rendering, which is all
the Display implementation consumes.
-/

namespace Tiled

/-- Model of the kind carried by the external std::io::Error type. -/
inductive IoErrorKind where
  | notFound
  | permissionDenied
  | invalidData
  | unexpectedEof
  | other
  deriving DecidableEq

/-- Model of the external std::io::Error type: a kind plus a message; its
Display rendering is the message. -/
structure IoError where
  kind : IoErrorKind
  message : String
  deriving DecidableEq

/-- Display rendering of the modelled std::io::Error. -/
def IoError.display (e : IoError) : String := e.message

/-- Model of the external base64::DecodeError type. -/
inductive Base64DecodeError where
  | InvalidByte (offset : Nat) (byte : Nat)
  | InvalidLength
  | InvalidLastSymbol (offset : Nat) (byte : Nat)
  deriving DecidableEq

/-- Display rendering of the modelled base64::DecodeError. -/
def Base64DecodeError.display : Base64DecodeError → String
  | .InvalidByte offset byte =>
      "Invalid byte " ++ toString byte ++ ", offset " ++ toString offset ++ "."
  | .InvalidLength => "Encoded text cannot have a 6-bit remainder."
  | .InvalidLastSymbol offset byte =>
      "Invalid last symbol " ++ toString byte ++ ", offset " ++ toString offset ++ "."

/-- Model of the external xml::reader::Error type: a position plus a
message. -/
structure XmlError where
  row : Nat
  col : Nat
  message : String
  deriving DecidableEq

/-- Display rendering of the modelled xml::reader::Error. -/
def XmlError.display (e : XmlError) : String :=
  toString e.row ++ ":" ++ toString e.col ++ " " ++ e.message

/-- Model of std::path::PathBuf, represented by its lossy textual
rendering, which is the only view the Display implementation uses. -/
structure PathBuf where
  lossy : String
  deriving DecidableEq

/-- Model of PathBuf::to_string_lossy. -/
def PathBuf.to_string_lossy (p : PathBuf) : String := p.lossy

/-- The Error enum from src/error.rs, with its twelve variants in source
order and the exact payload each variant stores. -/
inductive Error where
  | MalformedAttributes (s : String)
  | DecompressingError (e : IoError)
  | Base64DecodingError (e : Base64DecodeError)
  | XmlDecodingError (e : XmlError)
  | PrematureEnd (s : String)
  | PathIsNotFile
  | CouldNotOpenFile (path : PathBuf) (err : IoError)
  | InvalidTileFound
  | InvalidEncodingFormat (encoding : Option String) (compression : Option String)
  | InvalidPropertyValue (description : String)
  | UnknownPropertyType (type_name : String)
  | InvalidWangIdEncoding (read_string : String)
  deriving DecidableEq

/-- The Result alias from src/error.rs: `pub type Result<T> =
std::result::Result<T, Error>`. -/
def Result (T : Type) : Type := Except Error T

/-- The Display implementation for Error from src/error.rs, with the
arms in source order; the specific `InvalidEncodingFormat { encoding:
None, compression: None }` arm precedes the general one, exactly as in
the source match. -/
def Error.display : Error → String
  | .MalformedAttributes s => s
  | .DecompressingError e => e.display
  | .Base64DecodingError e => e.display
  | .XmlDecodingError e => e.display
  | .PrematureEnd s => s
  | .PathIsNotFile =>
      "The path given is invalid because it isn't contained in any folder."
  | .CouldNotOpenFile path err =>
      "Could not open '" ++ path.to_string_lossy ++ "'. Error: " ++ err.display
  | .InvalidTileFound => "Invalid tile found in map being parsed"
  | .InvalidEncodingFormat none none =>
      "Deprecated combination of encoding and compression"
  | .InvalidEncodingFormat encoding compression =>
      "Unknown encoding or compression format or invalid combination of both (for tile layers): "
        ++ encoding.getD "no" ++ " encoding with " ++ compression.getD "no" ++ " compression"
  | .InvalidPropertyValue description =>
      "Invalid property value: " ++ description
  | .UnknownPropertyType type_name =>
      "Unknown property value type '" ++ type_name ++ "'"
  | .InvalidWangIdEncoding read_string =>
      "\"" ++ read_string ++ "\" is not a valid WangId format"

/-- The possible underlying causes an Error can expose through its
source accessor: each is an external dependency error value. -/
inductive Cause where
  | io (e : IoError)
  | base64 (e : Base64DecodeError)
  | xml (e : XmlError)
  deriving DecidableEq

/-- The std::error::Error::source implementation from src/error.rs:
the four variants wrapping an external failure expose it; every other
variant exposes nothing. -/
def Error.source : Error → Option Cause
  | .DecompressingError e => some (.io e)
  | .Base64DecodingError e => some (.base64 e)
  | .XmlDecodingError e => some (.xml e)
  | .CouldNotOpenFile _ err => some (.io err)
  | _ => none

/-- The name of the variant an Error value was built with, mirroring the
constructor names of the source enum. -/
def Error.kindName : Error → String
  | .MalformedAttributes _ => "MalformedAttributes"
  | .DecompressingError _ => "DecompressingError"
  | .Base64DecodingError _ => "Base64DecodingError"
  | .XmlDecodingError _ => "XmlDecodingError"
  | .PrematureEnd _ => "PrematureEnd"
  | .PathIsNotFile => "PathIsNotFile"
  | .CouldNotOpenFile _ _ => "CouldNotOpenFile"
  | .InvalidTileFound => "InvalidTileFound"
  | .InvalidEncodingFormat _ _ => "InvalidEncodingFormat"
  | .InvalidPropertyValue _ => "InvalidPropertyValue"
  | .UnknownPropertyType _ => "UnknownPropertyType"
  | .InvalidWangIdEncoding _ => "InvalidWangIdEncoding"

/-- The variant names of the Error enum, in declaration order, embedding
the enum declaration of src/error.rs. -/
def Error.variantNames : List String :=
  ["MalformedAttributes", "DecompressingError", "Base64DecodingError",
   "XmlDecodingError", "PrematureEnd", "PathIsNotFile", "CouldNotOpenFile",
   "InvalidTileFound", "InvalidEncodingFormat", "InvalidPropertyValue",
   "UnknownPropertyType", "InvalidWangIdEncoding"]

/-- Embeds the attribute on the Error enum declaration in src/error.rs
that marks the enum as forward-compatible: consumers cannot match it
exhaustively without a wildcard arm. -/
def Error.isNonExhaustive : Bool := true

/-- Field access for the read_string field of the InvalidWangIdEncoding
variant; no other variant has that field. -/
def Error.read_string : Error → Option String
  | .InvalidWangIdEncoding s => some s
  | _ => none

theorem strData_append (s t : String) : (s ++ t).data = s.data ++ t.data := rfl

theorem ne_of_first_char (c d : Char) {s t : String}
    (hs : s.data.head? = some c) (ht : t.data.head? = some d)
    (hcd : c ≠ d) : s ≠ t := by
  intro he
  rw [he, ht] at hs
  exact hcd (Option.some.inj hs).symm

/-- C1: the source accessor returns the wrapped underlying cause exactly
for DecompressingError, Base64DecodingError, XmlDecodingError and
CouldNotOpenFile (whose source is its err field), and returns none for
every other variant. -/
theorem error_source_accessor :
    (∀ e : IoError, (Error.DecompressingError e).source = some (Cause.io e)) ∧
    (∀ e : Base64DecodeError, (Error.Base64DecodingError e).source = some (Cause.base64 e)) ∧
    (∀ e : XmlError, (Error.XmlDecodingError e).source = some (Cause.xml e)) ∧
    (∀ (p : PathBuf) (e : IoError), (Error.CouldNotOpenFile p e).source = some (Cause.io e)) ∧
    (∀ s, (Error.MalformedAttributes s).source = none) ∧
    (∀ s, (Error.PrematureEnd s).source = none) ∧
    (Error.PathIsNotFile).source = none ∧
    (Error.InvalidTileFound).source = none ∧
    (∀ enc comp, (Error.InvalidEncodingFormat enc comp).source = none) ∧
    (∀ d, (Error.InvalidPropertyValue d).source = none) ∧
    (∀ t, (Error.UnknownPropertyType t).source = none) ∧
    (∀ s, (Error.InvalidWangIdEncoding s).source = none) :=
  ⟨fun _ => rfl, fun _ => rfl, fun _ => rfl, fun _ _ => rfl, fun _ => rfl,
   fun _ => rfl, rfl, rfl, fun _ _ => rfl, fun _ => rfl, fun _ => rfl, fun _ => rfl⟩

/-- C2: formatting InvalidEncodingFormat with both fields absent yields
the deprecated-combination message, while formatting it with at least
one field present yields a message distinct from the deprecated one. -/
theorem invalid_encoding_format_deprecated_distinguished :
    (Error.InvalidEncodingFormat none none).display
      = "Deprecated combination of encoding and compression" ∧
    ∀ enc comp : Option String, (enc.isSome ∨ comp.isSome) →
      (Error.InvalidEncodingFormat enc comp).display
        ≠ (Error.InvalidEncodingFormat none none).display := by
  refine ⟨rfl, ?_⟩
  intro enc comp h
  have hd : (Error.InvalidEncodingFormat none none).display
      = "Deprecated combination of encoding and compression" := rfl
  rw [hd]
  cases enc with
  | none =>
    cases comp with
    | none => simp at h
    | some b =>
      have hu : (Error.InvalidEncodingFormat none (some b)).display
          = "Unknown encoding or compression format or invalid combination of both (for tile layers): "
            ++ "no" ++ " encoding with " ++ b ++ " compression" := rfl
      rw [hu]
      exact ne_of_first_char 'U' 'D' (by simp [strData_append]) (by decide) (by decide)
  | some a =>
    cases comp with
    | none =>
      have hu : (Error.InvalidEncodingFormat (some a) none).display
          = "Unknown encoding or compression format or invalid combination of both (for tile layers): "
            ++ a ++ " encoding with " ++ "no" ++ " compression" := rfl
      rw [hu]
      exact ne_of_first_char 'U' 'D' (by simp [strData_append]) (by decide) (by decide)
    | some b =>
      have hu : (Error.InvalidEncodingFormat (some a) (some b)).display
          = "Unknown encoding or compression format or invalid combination of both (for tile layers): "
            ++ a ++ " encoding with " ++ b ++ " compression" := rfl
      rw [hu]
      exact ne_of_first_char 'U' 'D' (by simp [strData_append]) (by decide) (by decide)

/-- C2 witness: with the encoding field present the rendering differs
from the deprecated-combination rendering. -/
theorem invalid_encoding_format_deprecated_distinguished_witness :
    (Error.InvalidEncodingFormat (some "csv") none).display
      ≠ (Error.InvalidEncodingFormat none none).display :=
  invalid_encoding_format_deprecated_distinguished.2 (some "csv") none (Or.inl rfl)

/-- C3 counterexample: the Error enum consists of exactly the twelve
named variants; none of them is a reserved unrecognized/other arm. -/
theorem error_no_reserved_other_arm :
    Error.variantNames
      = ["MalformedAttributes", "DecompressingError", "Base64DecodingError",
         "XmlDecodingError", "PrematureEnd", "PathIsNotFile", "CouldNotOpenFile",
         "InvalidTileFound", "InvalidEncodingFormat", "InvalidPropertyValue",
         "UnknownPropertyType", "InvalidWangIdEncoding"] ∧
    "Other" ∉ Error.variantNames ∧ "Unrecognized" ∉ Error.variantNames ∧
    "UnrecognizedError" ∉ Error.variantNames := by decide

/-- C3 amended: the Error type is forward-compatible through the
non-exhaustive marking on the enum declaration, not through an explicit
reserved unrecognized/other arm: every Error value is one of the twelve
named kinds and no variant is a reserved other arm. -/
theorem error_escape_hatch_is_nonexhaustive_marking :
    Error.isNonExhaustive = true ∧
    "Other" ∉ Error.variantNames ∧
    ∀ e : Error, e.kindName ∈ Error.variantNames := by
  refine ⟨rfl, by decide, ?_⟩
  intro e
  cases e <;> simp [Error.kindName, Error.variantNames]

/-- C4: the Error union contains exactly the twelve kinds of the
taxonomy, each realized, and the Result alias is the single unified
failure channel Result T = Except Error T. -/
theorem error_taxonomy_unified_channel :
    (∀ e : Error, e.kindName ∈ Error.variantNames) ∧
    Error.variantNames.length = 12 ∧
    (∀ n ∈ Error.variantNames, ∃ e : Error, e.kindName = n) ∧
    ∀ T : Type, Result T = Except Error T := by
  refine ⟨?_, by decide, ?_, fun _ => rfl⟩
  · intro e
    cases e <;> simp [Error.kindName, Error.variantNames]
  · intro n hn
    simp [Error.variantNames] at hn
    rcases hn with rfl | rfl | rfl | rfl | rfl | rfl | rfl | rfl | rfl | rfl | rfl | rfl
    · exact ⟨.MalformedAttributes "", rfl⟩
    · exact ⟨.DecompressingError ⟨.other, ""⟩, rfl⟩
    · exact ⟨.Base64DecodingError .InvalidLength, rfl⟩
    · exact ⟨.XmlDecodingError ⟨0, 0, ""⟩, rfl⟩
    · exact ⟨.PrematureEnd "", rfl⟩
    · exact ⟨.PathIsNotFile, rfl⟩
    · exact ⟨.CouldNotOpenFile ⟨""⟩ ⟨.other, ""⟩, rfl⟩
    · exact ⟨.InvalidTileFound, rfl⟩
    · exact ⟨.InvalidEncodingFormat none none, rfl⟩
    · exact ⟨.InvalidPropertyValue "", rfl⟩
    · exact ⟨.UnknownPropertyType "", rfl⟩
    · exact ⟨.InvalidWangIdEncoding "", rfl⟩

/-- C4 witness: the taxonomy realizes the InvalidTileFound kind. -/
theorem error_taxonomy_unified_channel_witness :
    ∃ e : Error, e.kindName = "InvalidTileFound" :=
  error_taxonomy_unified_channel.2.2.1 "InvalidTileFound" (by decide)

/-- C5: InvalidWangIdEncoding is a single error kind carrying the full
original string in its read_string field, and its Display quotes that
full string. -/
theorem invalid_wangid_carries_full_string :
    (∀ s, (Error.InvalidWangIdEncoding s).read_string = some s) ∧
    (∀ s t, (Error.InvalidWangIdEncoding s).kindName
      = (Error.InvalidWangIdEncoding t).kindName) ∧
    ∀ s, (Error.InvalidWangIdEncoding s).display
      = "\"" ++ s ++ "\" is not a valid WangId format" :=
  ⟨fun _ => rfl, fun _ _ => rfl, fun _ => rfl⟩

/-- C6: UnknownPropertyType carries the offending tag and is distinct
from InvalidPropertyValue, and their Display renderings are distinct for
all carried strings: one names the unknown type, the other describes the
invalid value. -/
theorem unknown_property_type_distinct :
    (∀ t d, Error.UnknownPropertyType t ≠ Error.InvalidPropertyValue d) ∧
    (∀ t, (Error.UnknownPropertyType t).display
      = "Unknown property value type '" ++ t ++ "'") ∧
    (∀ d, (Error.InvalidPropertyValue d).display
      = "Invalid property value: " ++ d) ∧
    ∀ t d, (Error.UnknownPropertyType t).display
      ≠ (Error.InvalidPropertyValue d).display := by
  refine ⟨fun t d h => Error.noConfusion h, fun _ => rfl, fun _ => rfl, ?_⟩
  intro t d
  have h1 : (Error.UnknownPropertyType t).display
      = "Unknown property value type '" ++ t ++ "'" := rfl
  have h2 : (Error.InvalidPropertyValue d).display
      = "Invalid property value: " ++ d := rfl
  rw [h1, h2]
  exact ne_of_first_char 'U' 'I' (by simp [strData_append]) (by simp [strData_append]) (by decide)

/-- C6 witness: the renderings differ at a concrete input. -/
theorem unknown_property_type_distinct_witness :
    (Error.UnknownPropertyType "vector3").display
      ≠ (Error.InvalidPropertyValue "vector3").display :=
  unknown_property_type_distinct.2.2.2 "vector3" "vector3"

/-- C7: each variant wrapping an external failure stores the external
error value itself, recoverable exactly through the source accessor;
two distinct io-error values with the same Display rendering still give
distinct Error values, so nothing is flattened to a string at
creation. -/
theorem external_failures_stored_as_values :
    (∀ e : IoError, (Error.DecompressingError e).source = some (Cause.io e)) ∧
    (∀ e : Base64DecodeError, (Error.Base64DecodingError e).source = some (Cause.base64 e)) ∧
    (∀ e : XmlError, (Error.XmlDecodingError e).source = some (Cause.xml e)) ∧
    (∀ (p : PathBuf) (e : IoError), (Error.CouldNotOpenFile p e).source = some (Cause.io e)) ∧
    IoError.display ⟨.notFound, "oops"⟩ = IoError.display ⟨.permissionDenied, "oops"⟩ ∧
    Error.DecompressingError ⟨.notFound, "oops"⟩
      ≠ Error.DecompressingError ⟨.permissionDenied, "oops"⟩ :=
  ⟨fun _ => rfl, fun _ => rfl, fun _ => rfl, fun _ _ => rfl, rfl, by decide⟩

/-- C8 counterexample: InvalidTileFound carries no diagnostic context at
all: it is a unit variant whose Display is a fixed message and which
exposes no offending string and no underlying cause. -/
theorem invalid_tile_found_counterexample :
    (Error.InvalidTileFound).display = "Invalid tile found in map being parsed" ∧
    (Error.InvalidTileFound).source = none ∧
    (Error.InvalidTileFound).read_string = none :=
  ⟨rfl, rfl, rfl⟩

/-- C8 amended: most variants carry an offending string or an underlying
cause, but InvalidTileFound carries no context: every Error of that kind
is the single unit value, rendered as the fixed message with no cause. -/
theorem invalid_tile_found_is_unit_variant :
    ∀ e : Error, e.kindName = "InvalidTileFound" →
      e = Error.InvalidTileFound ∧
      e.display = "Invalid tile found in map being parsed" ∧
      e.source = none := by
  intro e h
  cases e
  case InvalidTileFound => exact ⟨rfl, rfl, rfl⟩
  all_goals simp [Error.kindName] at h

/-- C8 amended witness: the unit value itself satisfies the amended
claim. -/
theorem invalid_tile_found_is_unit_variant_witness :
    Error.InvalidTileFound = Error.InvalidTileFound ∧
    (Error.InvalidTileFound).display = "Invalid tile found in map being parsed" ∧
    (Error.InvalidTileFound).source = none :=
  invalid_tile_found_is_unit_variant Error.InvalidTileFound rfl

/-- C9: with at least one of the two fields present,
InvalidEncodingFormat renders as the fixed unknown-combination sentence,
with an absent field rendered as the literal word no. -/
theorem invalid_encoding_format_unknown_message :
    ∀ enc comp : Option String, (enc.isSome ∨ comp.isSome) →
      (Error.InvalidEncodingFormat enc comp).display
        = "Unknown encoding or compression format or invalid combination of both (for tile layers): "
          ++ enc.getD "no" ++ " encoding with " ++ comp.getD "no" ++ " compression" := by
  intro enc comp h
  cases enc with
  | none =>
    cases comp with
    | none => simp at h
    | some b => rfl
  | some a =>
    cases comp with
    | none => rfl
    | some b => rfl

/-- C9 witness: the sentence at a concrete present/present input. -/
theorem invalid_encoding_format_unknown_message_witness :
    (Error.InvalidEncodingFormat (some "csv") (some "zlib")).display
      = "Unknown encoding or compression format or invalid combination of both (for tile layers): "
        ++ (some "csv" : Option String).getD "no" ++ " encoding with "
        ++ (some "zlib" : Option String).getD "no" ++ " compression" :=
  invalid_encoding_format_unknown_message (some "csv") (some "zlib") (Or.inl rfl)

/-- C10: CouldNotOpenFile renders both pieces of carried context: the
stored path lossily converted to text and the Display rendering of the
stored io error. -/
theorem could_not_open_file_display :
    ∀ (p : PathBuf) (e : IoError),
      (Error.CouldNotOpenFile p e).display
        = "Could not open '" ++ p.to_string_lossy ++ "'. Error: " ++ e.display :=
  fun _ _ => rfl

end Tiled
